import Mathlib

/-!
Verification of the Model Lifecycle and Dispatch Engine of the repository
(a Node.js service exposing LLaMA / Mistral / GPT-J backends behind a
uniform manager, with a sliding-window rate limiter and a periodic
retraining scheduler).

The development shallowly embeds the relevant source functions:

* the per-client sliding-window rate limiter middleware
  (src/config/config.js, the rateLimiter closure): `RL.rlStep`, `RL.rlRun`;
* the model manager (ModelManager in the unnamed source file):
  `MM.getModel`, `MM.generateFromAllModels`;
* the Mistral model handle (src/models/MistralModel.js), representative of
  the structurally identical LlamaModel and GptjModel classes:
  `Mistral.load`, `Mistral.generate`, `Mistral.train`, `Mistral.evaluate`,
  `Mistral.save`, `Mistral.unload`;
* the trainer (src/training/trainer.js): `Trainer.loadTrainingData`,
  `Trainer.mergeTrainingData`, and the periodic-firing body of
  `schedulePeriodicTraining` as `Trainer.fireOnce` / `Trainer.runTicks`.

Timestamps produced by `new Date().toISOString()` are passed as explicit
`String` parameters; `Date.now()` values are `Int`; the filesystem and the
backend libraries are explicit environment records.  JavaScript rejected
promises and thrown errors are `Except.error`; state mutation is explicit
state passing.
-/

set_option autoImplicit false

/-! ## Rate limiter (src/config/config.js, the rateLimiter middleware) -/

namespace RL

/-- Configuration object passed to the rateLimiter factory:
`{ windowMs, max }`. -/
structure RLConfig where
  windowMs : Int
  max : Nat
deriving DecidableEq, Repr

/-- The `requests` map of the middleware closure: client key to the stored
list of request timestamps.  A key never seen maps to the empty list, which
is indistinguishable from the `requests.set(ip, [])` initialization in the
source. -/
def RLState : Type := String → List Int

/-- The fresh `new Map()` of the closure. -/
def rlInit : RLState := fun _ => []

/-- The pruning filter of the source:
`requests.get(ip).filter(time => now - time < windowMs)`. -/
def keepInWindow (cfg : RLConfig) (now : Int) (l : List Int) : List Int :=
  l.filter (fun s => decide (now - s < cfg.windowMs))

/-- One admission decision of the middleware body: prune, reject with no
recording when the pruned count reaches `max`, otherwise record `now`.
Returns the decision (`true` = admitted, `next()` called) and the updated
`requests` map. -/
def rlStep (cfg : RLConfig) (σ : RLState) (key : String) (now : Int) :
    Bool × RLState :=
  let kept := keepInWindow cfg now (σ key)
  if cfg.max ≤ kept.length then
    (false, σ)
  else
    (true, fun k => if k = key then kept ++ [now] else σ k)

/-- Process a sequence of requests `(key, arrival time)` through the
middleware, collecting each decision tagged with its key. -/
def rlRun (cfg : RLConfig) (σ : RLState) :
    List (String × Int) → List (String × Bool) × RLState
  | [] => ([], σ)
  | (k, t) :: rest =>
    let step := rlStep cfg σ k t
    let tail := rlRun cfg step.2 rest
    ((k, step.1) :: tail.1, tail.2)

/-- The subsequence of decisions belonging to one client key. -/
def decisionsFor (key : String) : List (String × Bool) → List Bool
  | [] => []
  | (k, d) :: rest =>
    if k = key then d :: decisionsFor key rest else decisionsFor key rest

/-- The subsequence of requests issued under one client key. -/
def requestsFor (key : String) : List (String × Int) → List (String × Int)
  | [] => []
  | (k, t) :: rest =>
    if k = key then (k, t) :: requestsFor key rest else requestsFor key rest

/-- The request sequence with one client key's requests removed. -/
def requestsDropping (key : String) :
    List (String × Int) → List (String × Int)
  | [] => []
  | (k, t) :: rest =>
    if k = key then requestsDropping key rest
    else (k, t) :: requestsDropping key rest

/-- Literal transcription of the claim wording "prunes timestamps older
than now - windowMs": a timestamp is kept exactly when it is not strictly
older than `now - windowMs`. -/
def specKeep (cfg : RLConfig) (now : Int) (l : List Int) : List Int :=
  l.filter (fun s => decide (now - cfg.windowMs ≤ s))

/-- The admission step as the claim words it, differing from `rlStep` only
in the pruning predicate. -/
def specStep (cfg : RLConfig) (σ : RLState) (key : String) (now : Int) :
    Bool × RLState :=
  let kept := specKeep cfg now (σ key)
  if cfg.max ≤ kept.length then
    (false, σ)
  else
    (true, fun k => if k = key then kept ++ [now] else σ k)

/-- Request processing under the claim-worded step. -/
def specRun (cfg : RLConfig) (σ : RLState) :
    List (String × Int) → List (String × Bool) × RLState
  | [] => ([], σ)
  | (k, t) :: rest =>
    let step := specStep cfg σ k t
    let tail := specRun cfg step.2 rest
    ((k, step.1) :: tail.1, tail.2)

end RL

/-! ## Model manager (ModelManager class of the unnamed source file) -/

namespace MM

/-- Success test for `Except`, mirroring "the promise resolved". -/
def isOkE {ε α : Type} : Except ε α → Bool
  | Except.ok _ => true
  | Except.error _ => false

/-- The manager's observable fields: the `initialized` flag and the
`models` object as an association list from model name to the handle.  The
handle type is a parameter: for fan-out generation it is instantiated with
the handle's generate behaviour, elsewhere with an opaque type. -/
structure Manager (M : Type) where
  initialized : Bool
  models : List (String × M)
deriving DecidableEq, Repr

/-- JavaScript `name.toLowerCase()`: character-wise lowercasing (the
registry keys and selectors are ASCII, where this agrees with
`String.toLower`; it is written with a structural `List.map` so that it
computes by kernel reduction). -/
def jsToLower (s : String) : String := String.mk (s.data.map Char.toLower)

/-- Own-property part of the JavaScript read `this.models[key]`: the
entries explicitly stored on the models object literal. -/
def lookupName {M : Type} (key : String) : List (String × M) → Option M
  | [] => none
  | (n, m) :: rest => if n = key then some m else lookupName key rest

/-- The member names of `Object.prototype`.  `this.models` is a plain
object literal, so a property read on it falls back to these when the key
is not an own property; every one of them is a truthy function or object
value. -/
def protoKeys : List String :=
  ["constructor", "hasOwnProperty", "isPrototypeOf",
   "propertyIsEnumerable", "toLocaleString", "toString", "valueOf",
   "__defineGetter__", "__defineSetter__", "__lookupGetter__",
   "__lookupSetter__", "__proto__"]

/-- Outcome of a JavaScript property read on the models object: an own
entry (a registered handle), a truthy member inherited from
`Object.prototype` (identified by its name), or `undefined`. -/
inductive PropHit (M : Type) where
  | own : M → PropHit M
  | inherited : String → PropHit M
  | undef : PropHit M
deriving DecidableEq, Repr

/-- The full JavaScript property read `this.models[key]` on the plain
object literal: own properties first, then the `Object.prototype` chain,
otherwise `undefined`. -/
def readProp {M : Type} (key : String) (obj : List (String × M)) :
    PropHit M :=
  match lookupName key obj with
  | some m => PropHit.own m
  | none =>
    if key ∈ protoKeys then PropHit.inherited key else PropHit.undef

/-- The errors thrown by the manager itself: used before `init()`, or an
unknown model name (the error message carries the name as given). -/
inductive MgrErr where
  | notReady : MgrErr
  | notFound : String → MgrErr
deriving DecidableEq, Repr

/-- What `getModel` can hand back: a registered handle, or — for a name
whose lowercased form names an `Object.prototype` member — the inherited
object, which is truthy and therefore survives the `if (!model)` check
instead of triggering the not-found throw. -/
inductive Resolved (M : Type) where
  | handle : M → Resolved M
  | inheritedObject : String → Resolved M
deriving DecidableEq, Repr

/-- Tests whether a lookup outcome is a registered handle. -/
def isHandle {M : Type} : Except MgrErr (Resolved M) → Bool
  | Except.ok (Resolved.handle _) => true
  | _ => false

/-- Source `ModelManager.getModel`: fail when uninitialized, then read the
lowercased name off the models object (own properties first, then the
`Object.prototype` chain), and throw the not-found error (carrying the
original spelling) only when that read yields a falsy value — an
inherited prototype member is truthy and is returned as if it were a
model. -/
def getModel {M : Type} (mgr : Manager M) (name : String) :
    Except MgrErr (Resolved M) :=
  if mgr.initialized = false then
    Except.error MgrErr.notReady
  else
    match readProp (jsToLower name) mgr.models with
    | PropHit.own m => Except.ok (Resolved.handle m)
    | PropHit.inherited k => Except.ok (Resolved.inheritedObject k)
    | PropHit.undef => Except.error (MgrErr.notFound name)

/-- A handle's generate behaviour: prompt to resolved text or rejection
message. -/
def GenFun : Type := String → Except String String

/-- The object resolved by `generateFromAllModels`:
`{ prompt, results, timestamp }` with per-name entries. -/
structure FanoutResult where
  prompt : String
  results : List (String × String)
  timestamp : String
deriving DecidableEq, Repr

/-- The per-model entry written into `results`: the resolved text, or the
string `ERROR: message` produced by the per-model catch handler. -/
def fanEntry (g : GenFun) (prompt : String) : String :=
  match g prompt with
  | Except.ok text => text
  | Except.error e => "ERROR: " ++ e

/-- Source `ModelManager.generateFromAllModels`: throw when uninitialized,
otherwise run every handle's generate, each settled independently into the
`results` object (value or tagged error string), and resolve with prompt,
results and a timestamp.  `Promise.all` over the individually caught
promises never rejects. -/
def generateFromAllModels (mgr : Manager GenFun) (prompt : String)
    (now : String) : Except MgrErr FanoutResult :=
  if mgr.initialized = false then
    Except.error MgrErr.notReady
  else
    Except.ok
      { prompt := prompt
        results := mgr.models.map (fun p => (p.1, fanEntry p.2 prompt))
        timestamp := now }

/-- The key set of a fan-out outcome's result map (empty on a thrown
aggregate error). -/
def resultNames : Except MgrErr FanoutResult → List String
  | Except.ok r => r.results.map Prod.fst
  | Except.error _ => []

end MM

/-! ## Mistral model handle (src/models/MistralModel.js)

LlamaModel and GptjModel are structurally identical for every property
proved here (same guard-free load, auto-loading generate, check-free
train/evaluate/save, and guarded unload). -/

namespace Mistral

/-- Handle state: the `isLoaded` flag and the owned backend reference
(`this.pipeline`), identified by a number so that distinct instances are
distinguishable. -/
structure MState where
  isLoaded : Bool
  pipeline : Option Nat
deriving DecidableEq, Repr

/-- Environment of one call: whether `fs.existsSync(this.modelPath)` holds,
the outcome of the huggingface `pipeline(...)` construction, the text the
backend call resolves with, and whether the checkpoint write succeeds. -/
structure MEnv where
  pathExists : Bool
  pipelineResult : Except String Nat
  genText : Except String String
  writeOk : Bool

/-- Source `MistralModel.load`: no already-loaded guard — it always re-checks the
path and re-creates the pipeline; on any failure `isLoaded` is cleared and
the error is rethrown; on success the (fresh) pipeline is installed. -/
def load (env : MEnv) (s : MState) : Except String Bool × MState :=
  if env.pathExists then
    match env.pipelineResult with
    | Except.ok pid => (Except.ok true, { isLoaded := true, pipeline := some pid })
    | Except.error e => (Except.error e, { s with isLoaded := false })
  else
    (Except.error ("Model path tidak ditemukan"), { s with isLoaded := false })

/-- The try-block of `MistralModel.generate` after the load gate: invoke
the pipeline and return the generated text with the prompt prefix sliced
off (`result[0].generated_text.slice(prompt.length)`); backend errors are
rethrown; the handle state is untouched. -/
def genCore (env : MEnv) (s₁ : MState) (prompt : String) :
    Except String String × MState :=
  match s₁.pipeline with
  | none => (Except.error ("pipeline tidak tersedia"), s₁)
  | some _ =>
    match env.genText with
    | Except.ok full => (Except.ok (full.drop prompt.length), s₁)
    | Except.error e => (Except.error e, s₁)

/-- Source `MistralModel.generate`: auto-load when not loaded (`if (!this.isLoaded)
await this.load()`), a load failure rejecting the call, then run the
generation body. -/
def generate (env : MEnv) (s : MState) (prompt : String) :
    Except String String × MState :=
  match (if s.isLoaded then (Except.ok true, s) else load env s) with
  | (Except.error e, s₁) => (Except.error e, s₁)
  | (Except.ok _, s₁) => genCore env s₁ prompt

/-- Models `options.epochs || 1` of the source (JavaScript `||`: absent or zero
falls back to 1). -/
def epochsVal (opts : Option Nat) : Nat :=
  match opts with
  | some e => if e = 0 then 1 else e
  | none => 1

/-- The record resolved by the simulated fine-tuning. -/
structure TrainResult where
  status : String
  epochs : Nat
  loss : ℚ
  accuracy : ℚ
  timestamp : String
deriving DecidableEq, Repr

/-- Source `MistralModel.train`: performs no load-state check and triggers no
load; the simulated training always resolves with a result record and the
handle state is untouched. -/
def train {α : Type} (s : MState) (data : List α) (opts : Option Nat)
    (now : String) : Except String TrainResult × MState :=
  (Except.ok
    { status := "success", epochs := epochsVal opts, loss := 6/100,
      accuracy := 94/100, timestamp := now }, s)

/-- The metrics record resolved by the simulated evaluation. -/
structure EvalMetrics where
  perplexity : ℚ
  accuracy : ℚ
  f1Score : ℚ
  timestamp : String
deriving DecidableEq, Repr

/-- Source `MistralModel.evaluate`: no load-state check, no state change, always
resolves with the metrics record. -/
def evaluate {α : Type} (s : MState) (data : List α) (now : String) :
    Except String EvalMetrics × MState :=
  (Except.ok
    { perplexity := 322/100, accuracy := 93/100, f1Score := 89/100,
      timestamp := now }, s)

/-- Source `MistralModel.save`: writes the metadata file; no load-state check and
no handle-state change; I/O failure is rethrown. -/
def save (env : MEnv) (s : MState) (savePath : String) :
    Except String Bool × MState :=
  if env.writeOk then
    (Except.ok true, s)
  else
    (Except.error ("Gagal menyimpan model"), s)

/-- Source `MistralModel.unload`: release the pipeline only when
`this.isLoaded && this.pipeline` holds; in every case resolve with true. -/
def unload (s : MState) : Except String Bool × MState :=
  if s.isLoaded && s.pipeline.isSome then
    (Except.ok true, { isLoaded := false, pipeline := none })
  else
    (Except.ok true, s)

end Mistral

/-! ## Trainer (src/training/trainer.js) -/

namespace Trainer

/-- One training example of a data file (`{input, output, metadata}`). -/
structure TEx where
  input : String
  output : String
  metadata : String
deriving DecidableEq, Repr

/-- The training-data part of the filesystem: a file path maps to its
parsed JSON array, or to `none` when the file is missing or unparseable. -/
def FileData : Type := String → Option (List TEx)

/-- Source `Trainer.loadTrainingData`: read and parse one file, throwing when it
is missing or does not parse. -/
def loadTrainingData (fd : FileData) (filePath : String) :
    Except String (List TEx) :=
  match fd filePath with
  | some d => Except.ok d
  | none =>
    Except.error ("File data pelatihan tidak ditemukan: " ++ filePath)

/-- Source `Trainer.mergeTrainingData`: loads each file in the given order and
concatenates (`mergedData.concat(data)`); the first failing file aborts the
merge with its error. -/
def mergeTrainingData (fd : FileData) : List String →
    Except String (List TEx)
  | [] => Except.ok []
  | f :: rest =>
    match loadTrainingData fd f with
    | Except.error e => Except.error e
    | Except.ok d =>
      match mergeTrainingData fd rest with
      | Except.error e => Except.error e
      | Except.ok m => Except.ok (d ++ m)

/-- The number of examples a merge resolved with (zero on a thrown
error). -/
def exLen : Except String (List TEx) → Nat
  | Except.ok l => l.length
  | Except.error _ => 0

/-- Environment of one periodic firing: the `.json` files found in the
data directory, their contents, and whether a needed `ModelManager.init()`
would succeed. -/
structure TEnv where
  files : List String
  fileData : FileData
  initOk : Bool

/-- What `Trainer.trainModel` reports on success. -/
inductive TrainOut where
  | allModels : List String → TrainOut
  | single : String → TrainOut
deriving DecidableEq, Repr

/-- The manager as `ModelManager.init()` leaves it: initialized with the
three configured handles (handle internals opaque here). -/
def initManager : MM.Manager Unit :=
  { initialized := true
    models := [("llama", ()), ("mistral", ()), ("gptj", ())] }

/-- The manager-error messages as thrown by the source. -/
def mgrErrMessage : MM.MgrErr → String
  | MM.MgrErr.notReady => "ModelManager belum diinisialisasi"
  | MM.MgrErr.notFound n => "Model " ++ n ++ " tidak ditemukan"

/-- The selector dispatch of `Trainer.trainModel` once the manager is
initialized: train all handles (each simulated training succeeds) or
resolve the single named handle, propagating a not-found error. -/
def trainCore (mgr : MM.Manager Unit) (sel : String) :
    Except String TrainOut × MM.Manager Unit :=
  if MM.jsToLower sel = "all" then
    (Except.ok (TrainOut.allModels (mgr.models.map Prod.fst)), mgr)
  else
    match MM.getModel mgr sel with
    | Except.ok (MM.Resolved.handle _) =>
      (Except.ok (TrainOut.single sel), mgr)
    | Except.ok (MM.Resolved.inheritedObject _) =>
      (Except.error ("model.train is not a function"), mgr)
    | Except.error err => (Except.error (mgrErrMessage err), mgr)

/-- Source `Trainer.trainModel`: set up the manager first when needed (a
failing init rethrows), then dispatch on the selector. -/
def trainModelStep (env : TEnv) (mgr : MM.Manager Unit) (sel : String) :
    Except String TrainOut × MM.Manager Unit :=
  if mgr.initialized then
    trainCore mgr sel
  else if env.initOk then
    trainCore initManager sel
  else
    (Except.error ("Gagal menginisialisasi ModelManager"), mgr)

/-- Outcome of one firing of the periodic job: skipped for lack of data
files, completed training, or an error caught by the firing's own
try/catch. -/
inductive TickOutcome where
  | skipped : TickOutcome
  | completed : TrainOut → TickOutcome
  | caught : String → TickOutcome
deriving DecidableEq, Repr

/-- The interval callback body of `Trainer.schedulePeriodicTraining`: find
the data files; with none, skip (warn only, no error, no state change);
otherwise merge and train, with the surrounding try/catch converting any
thrown error into a reported, non-propagating outcome. -/
def fireOnce (sel : String) (env : TEnv) (mgr : MM.Manager Unit) :
    TickOutcome × MM.Manager Unit :=
  if env.files = [] then
    (TickOutcome.skipped, mgr)
  else
    match mergeTrainingData env.fileData env.files with
    | Except.error e => (TickOutcome.caught e, mgr)
    | Except.ok _ =>
      match trainModelStep env mgr sel with
      | (Except.ok out, mgr') => (TickOutcome.completed out, mgr')
      | (Except.error e, mgr') => (TickOutcome.caught e, mgr')

/-- The schedule as a sequence of firings: every tick of the interval runs
`fireOnce` on its own environment, threading the manager state; nothing a
firing does removes later ticks. -/
def runTicks (sel : String) (mgr : MM.Manager Unit) :
    List TEnv → List TickOutcome × MM.Manager Unit
  | [] => ([], mgr)
  | env :: rest =>
    let fired := fireOnce sel env mgr
    let tail := runTicks sel fired.2 rest
    (fired.1 :: tail.1, tail.2)

end Trainer

/-! ## Helper lemmas -/

theorem genCore_state (env : Mistral.MEnv) (s₁ : Mistral.MState)
    (prompt : String) : (Mistral.genCore env s₁ prompt).2 = s₁ := by
  unfold Mistral.genCore
  cases s₁.pipeline <;> cases env.genText <;> simp

theorem generate_state (env : Mistral.MEnv) (s : Mistral.MState)
    (prompt : String) :
    (Mistral.generate env s prompt).2 =
      if s.isLoaded then s else (Mistral.load env s).2 := by
  unfold Mistral.generate
  by_cases h : s.isLoaded
  · simp only [h, if_true]
    exact genCore_state env s prompt
  · simp only [h, if_false]
    rcases hl : Mistral.load env s with ⟨r, s₁⟩
    cases r <;> simp [genCore_state]

theorem mergeTrainingData_flatten (fd : Trainer.FileData) :
    ∀ (files : List String), (∀ f ∈ files, (fd f).isSome = true) →
      Trainer.mergeTrainingData fd files =
        Except.ok ((files.map (fun f => (fd f).getD [])).flatten) := by
  intro files
  induction files with
  | nil => intro _; rfl
  | cons f rest ih =>
    intro h
    have hf : (fd f).isSome = true := h f (List.mem_cons_self f rest)
    have hrest : ∀ g ∈ rest, (fd g).isSome = true :=
      fun g hg => h g (List.mem_cons_of_mem f hg)
    rcases ho : fd f with _ | d
    · rw [ho] at hf; simp at hf
    · simp [Trainer.mergeTrainingData, Trainer.loadTrainingData, ho, ih hrest]

theorem runTicks_length (sel : String) :
    ∀ (envs : List Trainer.TEnv) (mgr : MM.Manager Unit),
      (Trainer.runTicks sel mgr envs).1.length = envs.length := by
  intro envs
  induction envs with
  | nil => intro mgr; rfl
  | cons env rest ih =>
    intro mgr
    simp [Trainer.runTicks, ih]

theorem rlStep_other (cfg : RL.RLConfig) (σ : RL.RLState) (k : String)
    (t : Int) (k' : String) (h : k' ≠ k) :
    ((RL.rlStep cfg σ k t).2) k' = σ k' := by
  unfold RL.rlStep
  by_cases hc : cfg.max ≤ (RL.keepInWindow cfg t (σ k)).length <;>
    simp [hc, h]

theorem rlStep_congr (cfg : RL.RLConfig) (k : String) (t : Int)
    (σ σ' : RL.RLState) (h : σ k = σ' k) :
    (RL.rlStep cfg σ k t).1 = (RL.rlStep cfg σ' k t).1 ∧
      ((RL.rlStep cfg σ k t).2) k = ((RL.rlStep cfg σ' k t).2) k := by
  unfold RL.rlStep
  rw [h]
  by_cases hc : cfg.max ≤ (RL.keepInWindow cfg t (σ' k)).length <;>
    simp [hc, h]

theorem rlRun_localize (cfg : RL.RLConfig) (key : String) :
    ∀ (tr : List (String × Int)) (σ σ' : RL.RLState), σ key = σ' key →
      RL.decisionsFor key (RL.rlRun cfg σ tr).1 =
        RL.decisionsFor key (RL.rlRun cfg σ' (RL.requestsFor key tr)).1 ∧
      (RL.rlRun cfg σ tr).2 key =
        (RL.rlRun cfg σ' (RL.requestsFor key tr)).2 key := by
  intro tr
  induction tr with
  | nil => intro σ σ' h; exact ⟨rfl, h⟩
  | cons p rest ih =>
    intro σ σ' h
    rcases p with ⟨k, t⟩
    by_cases hk : k = key
    · subst hk
      have hstep := rlStep_congr cfg k t σ σ' h
      have htail := ih (RL.rlStep cfg σ k t).2 (RL.rlStep cfg σ' k t).2 hstep.2
      simp [RL.rlRun, RL.requestsFor, RL.decisionsFor, hstep.1, htail.1,
        htail.2]
    · have hother : ((RL.rlStep cfg σ k t).2) key = σ' key := by
        rw [rlStep_other cfg σ k t key (fun hh => hk hh.symm)]; exact h
      have htail := ih (RL.rlStep cfg σ k t).2 σ' hother
      simp [RL.rlRun, RL.requestsFor, RL.decisionsFor, hk, htail.1, htail.2]

theorem requestsFor_dropping (A B : String) (h : A ≠ B) :
    ∀ (tr : List (String × Int)),
      RL.requestsFor A (RL.requestsDropping B tr) = RL.requestsFor A tr := by
  intro tr
  induction tr with
  | nil => rfl
  | cons p rest ih =>
    rcases p with ⟨k, t⟩
    by_cases hkB : k = B
    · have hkA : ¬ (k = A) := fun hh => h (by rw [← hh, hkB])
      simp only [RL.requestsDropping, RL.requestsFor, eq_true hkB,
        eq_false hkA, if_true, if_false]
      exact ih
    · by_cases hkA : k = A
      · simp only [RL.requestsDropping, RL.requestsFor, eq_false hkB,
          eq_true hkA, if_true, if_false, ih]
      · simp only [RL.requestsDropping, RL.requestsFor, eq_false hkB,
          eq_false hkA, if_true, if_false]
        exact ih

theorem rlStep_len (cfg : RL.RLConfig) (σ : RL.RLState) (k : String)
    (t : Int) (h : ∀ k', (σ k').length ≤ cfg.max) :
    ∀ k', (((RL.rlStep cfg σ k t).2) k').length ≤ cfg.max := by
  intro k'
  unfold RL.rlStep
  by_cases hc : cfg.max ≤ (RL.keepInWindow cfg t (σ k)).length
  · simp [hc]; exact h k'
  · simp only [hc, if_false]
    by_cases hk : k' = k
    · have hlt := Nat.lt_of_not_le hc
      simp only [hk, if_pos, List.length_append, List.length_singleton]
      omega
    · simp [hk]; exact h k'

theorem rlRun_len (cfg : RL.RLConfig) :
    ∀ (tr : List (String × Int)) (σ : RL.RLState),
      (∀ k', (σ k').length ≤ cfg.max) →
      ∀ k', (((RL.rlRun cfg σ tr).2) k').length ≤ cfg.max := by
  intro tr
  induction tr with
  | nil => intro σ h k'; exact h k'
  | cons p rest ih =>
    intro σ h k'
    rcases p with ⟨k, t⟩
    exact ih (RL.rlStep cfg σ k t).2 (rlStep_len cfg σ k t h) k'

/-! ## Claim theorems -/

/-- Claim C1: over any initialized registry and any prompt, the fan-out
`generateFromAllModels` resolves (never rejects on a per-backend failure)
with a result map holding exactly one entry per registered handle name —
the backend's generated text on success, the tagged error string on
failure — together with the prompt and a timestamp. -/
theorem C1_generateFromAllModels_isolated :
    ∀ (mgr : MM.Manager MM.GenFun) (prompt now : String),
      mgr.initialized = true →
      MM.generateFromAllModels mgr prompt now =
        Except.ok
          { prompt := prompt
            results := mgr.models.map (fun p => (p.1, MM.fanEntry p.2 prompt))
            timestamp := now } ∧
      MM.isOkE (MM.generateFromAllModels mgr prompt now) = true ∧
      MM.resultNames (MM.generateFromAllModels mgr prompt now) =
        mgr.models.map Prod.fst := by
  intro mgr prompt now h
  have hmain : MM.generateFromAllModels mgr prompt now =
      Except.ok
        { prompt := prompt
          results := mgr.models.map (fun p => (p.1, MM.fanEntry p.2 prompt))
          timestamp := now } := by
    simp [MM.generateFromAllModels, h]
  refine ⟨hmain, ?_, ?_⟩
  · rw [hmain]; rfl
  · rw [hmain]
    show (mgr.models.map (fun p => (p.1, MM.fanEntry p.2 prompt))).map
        Prod.fst = mgr.models.map Prod.fst
    rw [List.map_map]
    rfl

/-- Witness for C1 at a two-handle registry where exactly one backend
rejects: the call resolves with one text entry and one tagged error
entry. -/
theorem C1_generateFromAllModels_isolated_witness :
    MM.generateFromAllModels
        { initialized := true
          models := [("llama", fun _ => Except.ok ("teks")),
                     ("mistral", fun _ => Except.error ("rusak"))] }
        ("halo") ("ts") =
      Except.ok
        { prompt := "halo"
          results := [("llama", "teks"), ("mistral", "ERROR: rusak")]
          timestamp := "ts" } ∧
    MM.isOkE (MM.generateFromAllModels
        { initialized := true
          models := [("llama", fun _ => Except.ok ("teks")),
                     ("mistral", fun _ => Except.error ("rusak"))] }
        ("halo") ("ts")) = true ∧
    MM.resultNames (MM.generateFromAllModels
        { initialized := true
          models := [("llama", fun _ => Except.ok ("teks")),
                     ("mistral", fun _ => Except.error ("rusak"))] }
        ("halo") ("ts")) = ["llama", "mistral"] :=
  C1_generateFromAllModels_isolated
    { initialized := true
      models := [("llama", fun _ => Except.ok ("teks")),
                 ("mistral", fun _ => Except.error ("rusak"))] }
    ("halo") ("ts") rfl

/-- Claim C5 counterexample: an initialized manager with an empty handle
set makes `generateFromAllModels` resolve (with an empty result map)
rather than raise, so the aggregate call does not error exactly on
"uninitialized or empty handle set" as claimed. -/
theorem C5_fanout_structural_counterexample :
    ¬ (∀ (mgr : MM.Manager MM.GenFun) (prompt now : String),
        (MM.isOkE (MM.generateFromAllModels mgr prompt now) = false ↔
          (mgr.initialized = false ∨ mgr.models = []))) := by
  intro h
  have h2 := (h { initialized := true, models := [] } ("p") ("t")).mpr
    (Or.inr rfl)
  simp [MM.generateFromAllModels, MM.isOkE] at h2

/-- Claim C5 amended: the fan-out call raises exactly when the registry is
uninitialized (the one structural failure in the code); with an initialized
registry it always resolves — an empty handle set yields an empty result
map rather than an error, and no per-backend failure is ever propagated as
the aggregate call's own failure. -/
theorem C5_fanout_structural_amended :
    ∀ (mgr : MM.Manager MM.GenFun) (prompt now : String),
      (MM.isOkE (MM.generateFromAllModels mgr prompt now) = false ↔
        mgr.initialized = false) ∧
      (mgr.initialized = false →
        MM.generateFromAllModels mgr prompt now =
          Except.error MM.MgrErr.notReady) := by
  intro mgr prompt now
  cases hin : mgr.initialized <;>
    simp [MM.generateFromAllModels, MM.isOkE, hin]

/-- Witness for the amended C5 at an uninitialized manager. -/
theorem C5_fanout_structural_amended_witness :
    (MM.isOkE (MM.generateFromAllModels
        { initialized := false, models := [] } ("p") ("t")) = false ↔
      (false = false)) ∧
    ((false = false) →
      MM.generateFromAllModels
          { initialized := false, models := [] } ("p") ("t") =
        Except.error MM.MgrErr.notReady) :=
  C5_fanout_structural_amended
    { initialized := false, models := [] } ("p") ("t")

/-- Claim C6 counterexample: `this.models` is a plain object literal, so
the read `this.models[name.toLowerCase()]` walks the prototype chain.
For a name such as constructor — whose lowercase form is not a registered
key but is an `Object.prototype` member — the read yields a truthy
inherited object, the `if (!model)` guard passes, and `getModel` returns
that object instead of throwing the model-not-found error, refuting both
"a name resolves iff its lowercase form is a registered key" and "lookup
of an absent name fails with a model-not-found error". -/
theorem C6_getModel_lookup_counterexample :
    ¬ (∀ (M : Type) (mgr : MM.Manager M) (nm : String),
        mgr.initialized = true →
        MM.lookupName (MM.jsToLower nm) mgr.models = none →
        MM.getModel mgr nm = Except.error (MM.MgrErr.notFound nm)) := by
  intro h
  have h2 := h Nat
    { initialized := true
      models := [("llama", 1), ("mistral", 2), ("gptj", 3)] }
    ("constructor") rfl (by decide)
  have h3 := congrArg (fun x => MM.isOkE x) h2
  exact absurd h3 (by decide)

/-- Claim C6 amended: `getModel` is case-insensitive via toLowerCase and
always fails with the not-initialized error on an uninitialized registry;
with an initialized registry a name resolves to a registered handle
exactly when its lowercase form is a registered key; a name whose
lowercase form is not a registered key but names an `Object.prototype`
member (such as constructor or __proto__) resolves to the truthy
inherited object instead of failing; only a name that is neither fails
with the model-not-found error (carrying the requested spelling); and
case variants of any resolving name resolve to the same result. -/
theorem C6_getModel_lookup :
    ∀ (M : Type) (mgr : MM.Manager M) (nm nm₂ : String),
      (mgr.initialized = false →
        MM.getModel mgr nm = Except.error MM.MgrErr.notReady) ∧
      (mgr.initialized = true →
        MM.isHandle (MM.getModel mgr nm) =
          (MM.lookupName (MM.jsToLower nm) mgr.models).isSome) ∧
      (mgr.initialized = true →
        MM.lookupName (MM.jsToLower nm) mgr.models = none →
        MM.jsToLower nm ∈ MM.protoKeys →
        MM.getModel mgr nm =
          Except.ok (MM.Resolved.inheritedObject (MM.jsToLower nm))) ∧
      (mgr.initialized = true →
        MM.lookupName (MM.jsToLower nm) mgr.models = none →
        MM.jsToLower nm ∉ MM.protoKeys →
        MM.getModel mgr nm = Except.error (MM.MgrErr.notFound nm)) ∧
      (MM.jsToLower nm = MM.jsToLower nm₂ →
        MM.isOkE (MM.getModel mgr nm) = true →
        MM.getModel mgr nm₂ = MM.getModel mgr nm) := by
  intro M mgr nm nm₂
  refine ⟨?_, ?_, ?_, ?_, ?_⟩
  · intro h; simp [MM.getModel, h]
  · intro h
    cases hl : MM.lookupName (MM.jsToLower nm) mgr.models with
    | none =>
      by_cases hcont : MM.jsToLower nm ∈ MM.protoKeys <;>
        simp [MM.getModel, MM.readProp, MM.isHandle, h, hl, hcont]
    | some m =>
      simp [MM.getModel, MM.readProp, MM.isHandle, h, hl]
  · intro h hl hcont
    simp [MM.getModel, MM.readProp, h, hl, hcont]
  · intro h hl hcont
    simp [MM.getModel, MM.readProp, h, hl, hcont]
  · intro he hok
    by_cases h : mgr.initialized = false
    · simp [MM.getModel, MM.isOkE, h] at hok
    · cases hr : MM.readProp (MM.jsToLower nm) mgr.models with
      | own m =>
        have hr₂ : MM.readProp (MM.jsToLower nm₂) mgr.models =
            MM.PropHit.own m := by
          rw [← he]; exact hr
        simp [MM.getModel, h, hr, hr₂]
      | inherited k =>
        have hr₂ : MM.readProp (MM.jsToLower nm₂) mgr.models =
            MM.PropHit.inherited k := by
          rw [← he]; exact hr
        simp [MM.getModel, h, hr, hr₂]
      | undef =>
        simp [MM.getModel, MM.isOkE, h, hr] at hok

/-- Witness for the amended C6 at the registry as `init()` builds it,
with the case variant LLaMA of the registered key llama. -/
theorem C6_getModel_lookup_witness :
    ((true = false) →
      MM.getModel
          { initialized := true
            models := [("llama", 1), ("mistral", 2), ("gptj", 3)] }
          ("LLaMA") =
        Except.error MM.MgrErr.notReady) ∧
    ((true = true) →
      MM.isHandle (MM.getModel
          { initialized := true
            models := [("llama", 1), ("mistral", 2), ("gptj", 3)] }
          ("LLaMA")) =
        (MM.lookupName (MM.jsToLower ("LLaMA"))
          [("llama", 1), ("mistral", 2), ("gptj", 3)]).isSome) ∧
    ((true = true) →
      MM.lookupName (MM.jsToLower ("LLaMA"))
          [("llama", 1), ("mistral", 2), ("gptj", 3)] = none →
      MM.jsToLower ("LLaMA") ∈ MM.protoKeys →
      MM.getModel
          { initialized := true
            models := [("llama", 1), ("mistral", 2), ("gptj", 3)] }
          ("LLaMA") =
        Except.ok (MM.Resolved.inheritedObject (MM.jsToLower ("LLaMA")))) ∧
    ((true = true) →
      MM.lookupName (MM.jsToLower ("LLaMA"))
          [("llama", 1), ("mistral", 2), ("gptj", 3)] = none →
      MM.jsToLower ("LLaMA") ∉ MM.protoKeys →
      MM.getModel
          { initialized := true
            models := [("llama", 1), ("mistral", 2), ("gptj", 3)] }
          ("LLaMA") =
        Except.error (MM.MgrErr.notFound ("LLaMA"))) ∧
    (MM.jsToLower ("LLaMA") = MM.jsToLower ("llama") →
      MM.isOkE (MM.getModel
          { initialized := true
            models := [("llama", 1), ("mistral", 2), ("gptj", 3)] }
          ("LLaMA")) = true →
      MM.getModel
          { initialized := true
            models := [("llama", 1), ("mistral", 2), ("gptj", 3)] }
          ("llama") =
        MM.getModel
          { initialized := true
            models := [("llama", 1), ("mistral", 2), ("gptj", 3)] }
          ("LLaMA")) :=
  C6_getModel_lookup Nat
    { initialized := true
      models := [("llama", 1), ("mistral", 2), ("gptj", 3)] }
    ("LLaMA") ("llama")

/-- Claim C8: when every listed training-data file parses, the merge is
exactly the order-preserving concatenation of the per-file example lists
(file-list order outer, in-file order inner), and the merged length is the
sum of the per-file lengths. -/
theorem C8_mergeTrainingData_concat :
    ∀ (fd : Trainer.FileData) (files : List String),
      (∀ f ∈ files, (fd f).isSome = true) →
      Trainer.mergeTrainingData fd files =
        Except.ok ((files.map (fun f => (fd f).getD [])).flatten) ∧
      Trainer.exLen (Trainer.mergeTrainingData fd files) =
        (files.map (fun f => ((fd f).getD []).length)).sum := by
  intro fd files h
  have hm := mergeTrainingData_flatten fd files h
  refine ⟨hm, ?_⟩
  rw [hm]
  show ((files.map (fun f => (fd f).getD [])).flatten).length =
    (files.map (fun f => ((fd f).getD []).length)).sum
  rw [List.length_flatten, List.map_map]
  rfl

/-- Witness for C8 at two concrete files with two and one examples. -/
theorem C8_mergeTrainingData_concat_witness :
    Trainer.mergeTrainingData
        (fun f => if f = "a.json"
          then some [{ input := "i1", output := "o1", metadata := "" },
                     { input := "i2", output := "o2", metadata := "" }]
          else if f = "b.json"
            then some [{ input := "i3", output := "o3", metadata := "" }]
            else none)
        ["a.json", "b.json"] =
      Except.ok [{ input := "i1", output := "o1", metadata := "" },
                 { input := "i2", output := "o2", metadata := "" },
                 { input := "i3", output := "o3", metadata := "" }] ∧
    Trainer.exLen (Trainer.mergeTrainingData
        (fun f => if f = "a.json"
          then some [{ input := "i1", output := "o1", metadata := "" },
                     { input := "i2", output := "o2", metadata := "" }]
          else if f = "b.json"
            then some [{ input := "i3", output := "o3", metadata := "" }]
            else none)
        ["a.json", "b.json"]) = 3 :=
  C8_mergeTrainingData_concat
    (fun f => if f = "a.json"
      then some [{ input := "i1", output := "o1", metadata := "" },
                 { input := "i2", output := "o2", metadata := "" }]
      else if f = "b.json"
        then some [{ input := "i3", output := "o3", metadata := "" }]
        else none)
    ["a.json", "b.json"] (by decide)

/-- Claim C9: `unload()` on an already-unloaded handle is a no-op success —
it resolves, raises nothing, and the state (still unloaded) is
untouched. -/
theorem C9_unload_idempotent :
    ∀ (s : Mistral.MState), s.isLoaded = false →
      Mistral.unload s = (Except.ok true, s) := by
  intro s h
  simp [Mistral.unload, h]

/-- Witness for C9 at the fresh unloaded handle state. -/
theorem C9_unload_idempotent_witness :
    Mistral.unload { isLoaded := false, pipeline := none } =
      (Except.ok true, { isLoaded := false, pipeline := none }) :=
  C9_unload_idempotent { isLoaded := false, pipeline := none } rfl

/-- Claim C2 counterexample: the claimed pruning "timestamps older than
now − windowMs" (strictly older) does not describe the code, whose filter
`now - time < windowMs` also prunes a timestamp aged exactly windowMs.
The decision criterion therefore differs at the window boundary: with
windowMs = 1000, maxRequests = 1, a key whose stored timestamp is 0 and a
request at time 1000, the code admits, while the claim's remaining
in-window count is 1 ≥ 1 and demands rejection; over the trace
[(clientA,0), (clientA,1000)] the code yields [admit, admit] but the
described limiter yields [admit, reject]. -/
theorem C2_rateLimiter_counterexample :
    (¬ (∀ (cfg : RL.RLConfig) (σ : RL.RLState) (k : String) (t : Int),
        ((RL.rlStep cfg σ k t).1 = false ↔
          cfg.max ≤ (RL.specKeep cfg t (σ k)).length))) ∧
    (RL.rlRun { windowMs := 1000, max := 1 } RL.rlInit
        [("clientA", 0), ("clientA", 1000)]).1 =
      [("clientA", true), ("clientA", true)] ∧
    (RL.specRun { windowMs := 1000, max := 1 } RL.rlInit
        [("clientA", 0), ("clientA", 1000)]).1 =
      [("clientA", true), ("clientA", false)] := by
  refine ⟨?_, by decide, by decide⟩
  intro h
  have h2 := (h { windowMs := 1000, max := 1 } (fun _ => [0])
    ("clientA") 1000).mpr (by decide)
  exact absurd h2 (by decide)

/-- Claim C2 amended: `admit` prunes the key's timestamps aged at least
windowMs (the code keeps s exactly when now − s < windowMs, so a
timestamp exactly windowMs old is also pruned); it rejects without
recording anything when the remaining in-window count is at least
maxRequests and otherwise records now and admits; with windowMs 1000 and
maxRequests 2, three back-to-back calls for one key yield
[admit, admit, reject]; and after any sequence of decisions a key stores
at most maxRequests timestamps, so its in-window count never exceeds
maxRequests. -/
theorem C2_rateLimiter_amended :
    ∀ (cfg : RL.RLConfig) (σ : RL.RLState) (k : String) (t s t₂ : Int)
      (tr : List (String × Int)) (k' : String),
      (s ∈ RL.keepInWindow cfg t (σ k) ↔
        (s ∈ σ k ∧ t - s < cfg.windowMs)) ∧
      ((RL.rlStep cfg σ k t).1 = false ↔
        cfg.max ≤ (RL.keepInWindow cfg t (σ k)).length) ∧
      ((RL.rlStep cfg σ k t).1 = false → (RL.rlStep cfg σ k t).2 = σ) ∧
      ((RL.rlStep cfg σ k t).1 = true →
        ((RL.rlStep cfg σ k t).2) k = RL.keepInWindow cfg t (σ k) ++ [t]) ∧
      (RL.decisionsFor ("clientA")
        (RL.rlRun { windowMs := 1000, max := 2 } RL.rlInit
          [("clientA", 0), ("clientA", 0), ("clientA", 0)]).1 =
        [true, true, false]) ∧
      (((RL.rlRun cfg RL.rlInit tr).2 k').length ≤ cfg.max) ∧
      ((((RL.rlRun cfg RL.rlInit tr).2 k').filter
          (fun u => decide (t₂ - cfg.windowMs ≤ u ∧ u ≤ t₂))).length ≤
        cfg.max) := by
  intro cfg σ k t s t₂ tr k'
  have hlen : ((RL.rlRun cfg RL.rlInit tr).2 k').length ≤ cfg.max :=
    rlRun_len cfg tr RL.rlInit (fun _ => Nat.zero_le _) k'
  refine ⟨?_, ?_, ?_, ?_, by decide, hlen, ?_⟩
  · simp [RL.keepInWindow, List.mem_filter]
  · by_cases hc : cfg.max ≤ (RL.keepInWindow cfg t (σ k)).length <;>
      simp [RL.rlStep, hc]
  · by_cases hc : cfg.max ≤ (RL.keepInWindow cfg t (σ k)).length <;>
      simp [RL.rlStep, hc]
  · by_cases hc : cfg.max ≤ (RL.keepInWindow cfg t (σ k)).length <;>
      simp [RL.rlStep, hc]
  · exact le_trans (List.length_filter_le _ _) hlen

/-- Witness for the amended C2 at the fresh limiter state, key clientA,
time 0, and the three-call scenario trace. -/
theorem C2_rateLimiter_amended_witness :
    ((0 : Int) ∈ RL.keepInWindow { windowMs := 1000, max := 2 } 0
        (RL.rlInit ("clientA")) ↔
      ((0 : Int) ∈ RL.rlInit ("clientA") ∧ (0 : Int) - 0 < 1000)) ∧
    ((RL.rlStep { windowMs := 1000, max := 2 } RL.rlInit
        ("clientA") 0).1 = false ↔
      2 ≤ (RL.keepInWindow { windowMs := 1000, max := 2 } 0
        (RL.rlInit ("clientA"))).length) ∧
    ((RL.rlStep { windowMs := 1000, max := 2 } RL.rlInit
        ("clientA") 0).1 = false →
      (RL.rlStep { windowMs := 1000, max := 2 } RL.rlInit
        ("clientA") 0).2 = RL.rlInit) ∧
    ((RL.rlStep { windowMs := 1000, max := 2 } RL.rlInit
        ("clientA") 0).1 = true →
      ((RL.rlStep { windowMs := 1000, max := 2 } RL.rlInit
        ("clientA") 0).2) ("clientA") =
        RL.keepInWindow { windowMs := 1000, max := 2 } 0
          (RL.rlInit ("clientA")) ++ [0]) ∧
    (RL.decisionsFor ("clientA")
      (RL.rlRun { windowMs := 1000, max := 2 } RL.rlInit
        [("clientA", 0), ("clientA", 0), ("clientA", 0)]).1 =
      [true, true, false]) ∧
    (((RL.rlRun { windowMs := 1000, max := 2 } RL.rlInit
        [("clientA", 0), ("clientA", 0), ("clientA", 0)]).2
        ("clientA")).length ≤ 2) ∧
    ((((RL.rlRun { windowMs := 1000, max := 2 } RL.rlInit
        [("clientA", 0), ("clientA", 0), ("clientA", 0)]).2
        ("clientA")).filter
        (fun u => decide ((0 : Int) - 1000 ≤ u ∧ u ≤ 0))).length ≤ 2) :=
  C2_rateLimiter_amended { windowMs := 1000, max := 2 } RL.rlInit
    ("clientA") 0 0 0
    [("clientA", 0), ("clientA", 0), ("clientA", 0)] ("clientA")

/-- Claim C3 counterexample: `train` performs no load-state check — called
on an unloaded handle it still resolves with a training-result record and
leaves the handle unloaded, so no implicit load transition happens and the
capability does not run only against a loaded backend. -/
theorem C3_capability_gating_counterexample :
    ¬ (∀ (s : Mistral.MState) (opts : Option Nat) (now : String),
        MM.isOkE (Mistral.train s ([] : List String) opts now).1 = true →
        ((Mistral.train s ([] : List String) opts now).2).isLoaded =
          true) := by
  intro h
  have h2 := h { isLoaded := false, pipeline := none } none ("t") rfl
  simp [Mistral.train] at h2

/-- Claim C3 amended: only `generate` gates on the load state — it
auto-loads an unloaded handle before generating (on load success the
request runs against a loaded backend; a load failure rejects the call
with the load error) — while `train`, `evaluate` and `save` perform no
load-state check at all: they run regardless of state, trigger no load,
and leave the handle state unchanged. -/
theorem C3_capability_gating_amended :
    ∀ (env : Mistral.MEnv) (s : Mistral.MState)
      (prompt savePath now : String) (opts : Option Nat) (d : List String)
      (e : String),
      ((Mistral.generate env s prompt).2 =
        if s.isLoaded then s else (Mistral.load env s).2) ∧
      (s.isLoaded = false → env.pathExists = true →
        MM.isOkE env.pipelineResult = true →
        ((Mistral.generate env s prompt).2).isLoaded = true) ∧
      (s.isLoaded = false → (Mistral.load env s).1 = Except.error e →
        (Mistral.generate env s prompt).1 = Except.error e) ∧
      ((Mistral.train s d opts now).2 = s ∧
        MM.isOkE (Mistral.train s d opts now).1 = true) ∧
      ((Mistral.evaluate s d now).2 = s ∧
        MM.isOkE (Mistral.evaluate s d now).1 = true) ∧
      ((Mistral.save env s savePath).2 = s) := by
  intro env s prompt savePath now opts d e
  refine ⟨generate_state env s prompt, ?_, ?_, ⟨rfl, rfl⟩, ⟨rfl, rfl⟩, ?_⟩
  · intro h1 h2 h3
    rw [generate_state env s prompt]
    simp only [h1, Bool.false_eq_true, if_false]
    cases hp : env.pipelineResult with
    | ok pid => simp [Mistral.load, h2, hp]
    | error msg => rw [hp] at h3; simp [MM.isOkE] at h3
  · intro h1 hl
    unfold Mistral.generate
    simp only [h1, Bool.false_eq_true, if_false]
    rcases hload : Mistral.load env s with ⟨r, s₁⟩
    have hr : r = Except.error e := (congrArg Prod.fst hload).symm.trans hl
    subst hr
    rfl
  · by_cases hw : env.writeOk <;> simp [Mistral.save, hw]

/-- Witness for the amended C3 at an unloaded handle with a healthy
environment: generate auto-loads, while train, evaluate and save leave the
unloaded state untouched. -/
theorem C3_capability_gating_amended_witness :
    ((Mistral.generate
        { pathExists := true, pipelineResult := Except.ok 5,
          genText := Except.ok ("halo dunia"), writeOk := true }
        { isLoaded := false, pipeline := none } ("p")).2 =
      if Mistral.MState.isLoaded { isLoaded := false, pipeline := none }
        then { isLoaded := false, pipeline := none }
        else (Mistral.load
          { pathExists := true, pipelineResult := Except.ok 5,
            genText := Except.ok ("halo dunia"), writeOk := true }
          { isLoaded := false, pipeline := none }).2) ∧
    ((false : Bool) = false → (true : Bool) = true →
      MM.isOkE (Except.ok (ε := String) 5) = true →
      ((Mistral.generate
          { pathExists := true, pipelineResult := Except.ok 5,
            genText := Except.ok ("halo dunia"), writeOk := true }
          { isLoaded := false, pipeline := none } ("p")).2).isLoaded =
        true) ∧
    ((false : Bool) = false →
      (Mistral.load
          { pathExists := true, pipelineResult := Except.ok 5,
            genText := Except.ok ("halo dunia"), writeOk := true }
          { isLoaded := false, pipeline := none }).1 =
        Except.error ("e") →
      (Mistral.generate
          { pathExists := true, pipelineResult := Except.ok 5,
            genText := Except.ok ("halo dunia"), writeOk := true }
          { isLoaded := false, pipeline := none } ("p")).1 =
        Except.error ("e")) ∧
    ((Mistral.train { isLoaded := false, pipeline := none }
        ([] : List String) none ("ts")).2 =
      { isLoaded := false, pipeline := none } ∧
      MM.isOkE (Mistral.train { isLoaded := false, pipeline := none }
        ([] : List String) none ("ts")).1 = true) ∧
    ((Mistral.evaluate { isLoaded := false, pipeline := none }
        ([] : List String) ("ts")).2 =
      { isLoaded := false, pipeline := none } ∧
      MM.isOkE (Mistral.evaluate { isLoaded := false, pipeline := none }
        ([] : List String) ("ts")).1 = true) ∧
    ((Mistral.save
        { pathExists := true, pipelineResult := Except.ok 5,
          genText := Except.ok ("halo dunia"), writeOk := true }
        { isLoaded := false, pipeline := none } ("cp")).2 =
      { isLoaded := false, pipeline := none }) :=
  C3_capability_gating_amended
    { pathExists := true, pipelineResult := Except.ok 5,
      genText := Except.ok ("halo dunia"), writeOk := true }
    { isLoaded := false, pipeline := none }
    ("p") ("cp") ("ts") none ([] : List String) ("e")

/-- Claim C4 counterexample: `load()` on an already-loaded handle is not a
no-op success. With the configured path absent at the time of the second
call, `load()` on a loaded handle rejects and flips the state to
unloaded. -/
theorem C4_load_reentrant_counterexample :
    ¬ (∀ (env : Mistral.MEnv) (s : Mistral.MState), s.isLoaded = true →
        Mistral.load env s = (Except.ok true, s)) := by
  intro h
  have h2 := h
    { pathExists := false, pipelineResult := Except.ok 0,
      genText := Except.ok ("g"), writeOk := true }
    { isLoaded := true, pipeline := some 7 } rfl
  have h3 := congrArg (fun p => p.2.isLoaded) h2
  simp [Mistral.load] at h3

/-- Claim C4 amended: `load()` has no already-loaded guard — on a loaded
handle it re-executes the full load: it behaves exactly as on an unloaded
handle with the same backend reference; when the path exists and backend
construction succeeds it resolves with the state loaded and the owned
backend replaced by the freshly constructed instance; when the path is
absent, or construction fails, it rejects and sets the state to unloaded
(keeping the stale backend reference). -/
theorem C4_load_reentrant_amended :
    ∀ (env : Mistral.MEnv) (s : Mistral.MState) (pid : Nat) (e : String),
      (s.isLoaded = true →
        Mistral.load env s =
          Mistral.load env { isLoaded := false, pipeline := s.pipeline }) ∧
      (env.pathExists = true → env.pipelineResult = Except.ok pid →
        Mistral.load env s =
          (Except.ok true, { isLoaded := true, pipeline := some pid })) ∧
      (env.pathExists = false →
        Mistral.load env s =
          (Except.error ("Model path tidak ditemukan"),
            { isLoaded := false, pipeline := s.pipeline })) ∧
      (env.pathExists = true → env.pipelineResult = Except.error e →
        Mistral.load env s =
          (Except.error e, { isLoaded := false, pipeline := s.pipeline })) := by
  intro env s pid e
  refine ⟨fun _ => rfl, ?_, ?_, ?_⟩
  · intro hp hr; simp [Mistral.load, hp, hr]
  · intro hp; simp [Mistral.load, hp]
  · intro hp hr; simp [Mistral.load, hp, hr]

/-- Witness for the amended C4 at a loaded handle owning backend instance
7, in an environment whose load would construct the fresh instance 5. -/
theorem C4_load_reentrant_amended_witness :
    ((true : Bool) = true →
      Mistral.load
          { pathExists := true, pipelineResult := Except.ok 5,
            genText := Except.ok ("g"), writeOk := true }
          { isLoaded := true, pipeline := some 7 } =
        Mistral.load
          { pathExists := true, pipelineResult := Except.ok 5,
            genText := Except.ok ("g"), writeOk := true }
          { isLoaded := false, pipeline := some 7 }) ∧
    ((true : Bool) = true → Except.ok (ε := String) 5 = Except.ok 5 →
      Mistral.load
          { pathExists := true, pipelineResult := Except.ok 5,
            genText := Except.ok ("g"), writeOk := true }
          { isLoaded := true, pipeline := some 7 } =
        (Except.ok true, { isLoaded := true, pipeline := some 5 })) ∧
    ((true : Bool) = false →
      Mistral.load
          { pathExists := true, pipelineResult := Except.ok 5,
            genText := Except.ok ("g"), writeOk := true }
          { isLoaded := true, pipeline := some 7 } =
        (Except.error ("Model path tidak ditemukan"),
          { isLoaded := false, pipeline := some 7 })) ∧
    ((true : Bool) = true → Except.ok (ε := String) 5 = Except.error ("e") →
      Mistral.load
          { pathExists := true, pipelineResult := Except.ok 5,
            genText := Except.ok ("g"), writeOk := true }
          { isLoaded := true, pipeline := some 7 } =
        (Except.error ("e"), { isLoaded := false, pipeline := some 7 })) :=
  C4_load_reentrant_amended
    { pathExists := true, pipelineResult := Except.ok 5,
      genText := Except.ok ("g"), writeOk := true }
    { isLoaded := true, pipeline := some 7 } 5 ("e")

/-- Claim C7: a firing of the periodic retraining job that finds no
training-data files skips training entirely — no error, no manager or
schedule state change; any error raised inside a firing is caught into
that firing's own outcome; and no firing's outcome cancels the schedule:
every tick fires, and two ticks with no data files both skip with the
state untouched. -/
theorem C7_periodic_training_isolated :
    ∀ (sel : String) (mgr : MM.Manager Unit) (env : Trainer.TEnv)
      (envs : List Trainer.TEnv),
      (env.files = [] →
        Trainer.fireOnce sel env mgr = (Trainer.TickOutcome.skipped, mgr)) ∧
      ((Trainer.runTicks sel mgr (env :: envs)).1 =
        (Trainer.fireOnce sel env mgr).1 ::
          (Trainer.runTicks sel (Trainer.fireOnce sel env mgr).2 envs).1) ∧
      ((Trainer.runTicks sel mgr envs).1.length = envs.length) ∧
      (env.files = [] →
        Trainer.runTicks sel mgr [env, env] =
          ([Trainer.TickOutcome.skipped, Trainer.TickOutcome.skipped],
            mgr)) := by
  intro sel mgr env envs
  refine ⟨?_, rfl, runTicks_length sel envs mgr, ?_⟩
  · intro h; simp [Trainer.fireOnce, h]
  · intro h; simp [Trainer.runTicks, Trainer.fireOnce, h]

/-- Witness for C7 on two consecutive ticks with no data files present. -/
theorem C7_periodic_training_isolated_witness :
    ((Trainer.TEnv.files
        { files := [], fileData := fun _ => none, initOk := true } = []) →
      Trainer.fireOnce ("all")
          { files := [], fileData := fun _ => none, initOk := true }
          { initialized := false, models := [] } =
        (Trainer.TickOutcome.skipped,
          { initialized := false, models := [] })) ∧
    ((Trainer.runTicks ("all") { initialized := false, models := [] }
        ({ files := [], fileData := fun _ => none, initOk := true } ::
          [{ files := [], fileData := fun _ => none, initOk := true }])).1 =
      (Trainer.fireOnce ("all")
          { files := [], fileData := fun _ => none, initOk := true }
          { initialized := false, models := [] }).1 ::
        (Trainer.runTicks ("all")
          (Trainer.fireOnce ("all")
            { files := [], fileData := fun _ => none, initOk := true }
            { initialized := false, models := [] }).2
          [{ files := [], fileData := fun _ => none, initOk := true }]).1) ∧
    ((Trainer.runTicks ("all") { initialized := false, models := [] }
        [{ files := [], fileData := fun _ => none, initOk := true }]).1.length =
      ([{ files := [], fileData := fun _ => none, initOk := true }] :
        List Trainer.TEnv).length) ∧
    ((Trainer.TEnv.files
        { files := [], fileData := fun _ => none, initOk := true } = []) →
      Trainer.runTicks ("all") { initialized := false, models := [] }
          [{ files := [], fileData := fun _ => none, initOk := true },
           { files := [], fileData := fun _ => none, initOk := true }] =
        ([Trainer.TickOutcome.skipped, Trainer.TickOutcome.skipped],
          { initialized := false, models := [] })) :=
  C7_periodic_training_isolated ("all")
    { initialized := false, models := [] }
    { files := [], fileData := fun _ => none, initOk := true }
    [{ files := [], fileData := fun _ => none, initOk := true }]

/-- Claim C10: admission decisions are independent across client keys —
for any two distinct keys A and B and any interleaved request trace, A's
decision sequence equals A's decision sequence over the trace with B's
requests removed: one key's requests never consume or affect another
key's quota. -/
theorem C10_rateLimiter_noninterference :
    ∀ (cfg : RL.RLConfig) (tr : List (String × Int)) (A B : String),
      A ≠ B →
      RL.decisionsFor A (RL.rlRun cfg RL.rlInit tr).1 =
        RL.decisionsFor A
          (RL.rlRun cfg RL.rlInit (RL.requestsDropping B tr)).1 := by
  intro cfg tr A B hAB
  have h1 := (rlRun_localize cfg A tr RL.rlInit RL.rlInit rfl).1
  have h2 := (rlRun_localize cfg A (RL.requestsDropping B tr) RL.rlInit
    RL.rlInit rfl).1
  rw [h1, h2, requestsFor_dropping A B hAB tr]

/-- Witness for C10 on an interleaved trace of keys alice and bob. -/
theorem C10_rateLimiter_noninterference_witness :
    RL.decisionsFor ("alice")
        (RL.rlRun { windowMs := 1000, max := 1 } RL.rlInit
          [("alice", 0), ("bob", 0), ("alice", 1)]).1 =
      RL.decisionsFor ("alice")
        (RL.rlRun { windowMs := 1000, max := 1 } RL.rlInit
          (RL.requestsDropping ("bob")
            [("alice", 0), ("bob", 0), ("alice", 1)])).1 :=
  C10_rateLimiter_noninterference { windowMs := 1000, max := 1 }
    [("alice", 0), ("bob", 0), ("alice", 1)] ("alice") ("bob") (by decide)
